import Mathlib

/-!
Verification of the k1-starknet-adapter swap-request orchestration and
admission subsystem.  The definitions below are a shallow embedding of the
TypeScript sources (`src/errors.ts`, `src/middleware.ts`, `src/routes.ts`,
`src/index.ts`); theorems settle the specification claims against them.
-/

namespace K1

/-- JavaScript-style substring containment on character lists: does the
needle occur contiguously? Mirrors `String.prototype.includes`. -/
def firstMatches : List Char → List Char → Bool
  | [], _ => true
  | _ :: _, [] => false
  | a :: as, b :: bs => a == b && firstMatches as bs

def hasOccurrence (needle : List Char) : List Char → Bool
  | [] => firstMatches needle []
  | b :: bs => firstMatches needle (b :: bs) || hasOccurrence needle bs

/-- `jsIncludes s sub` models `s.includes(sub)` in JavaScript. -/
def jsIncludes (s sub : String) : Bool :=
  hasOccurrence sub.data s.data

/-- `jsStartsWith s pre` models `s.startsWith(pre)` in JavaScript. -/
def jsStartsWith (s pre : String) : Bool :=
  firstMatches pre.data s.data

/-- Models `s.toLowerCase()` (ASCII case folding suffices for the keyword
signals the classifier looks for). -/
def lowerStr (s : String) : String :=
  String.map Char.toLower s

/-- Error codes of `src/errors.ts` (`enum ErrorCode`). -/
inductive ErrorCode where
  | MISSING_REQUIRED_FIELDS
  | INVALID_AMOUNT
  | INVALID_ADDRESS
  | INVALID_TOKEN_ADDRESS
  | INVALID_REQUEST_FORMAT
  | ENDPOINT_NOT_FOUND
  | SWAP_EXECUTION_FAILED
  | BALANCE_QUERY_FAILED
  | CONFIGURATION_ERROR
  | INTERNAL_SERVER_ERROR
  | TOKEN_NOT_FOUND
  | LIGHTNING_NOT_AVAILABLE
  | INSUFFICIENT_BALANCE
  | NETWORK_ERROR
  | PAYMENT_TIMEOUT
  | TIMEOUT_ERROR
  | RPC_CONNECTION_FAILED
  | RATE_LIMIT_EXCEEDED
  | REQUEST_TOO_LARGE
  | INVALID_CONTENT_TYPE
  deriving DecidableEq, Repr

/-- The fixed code-to-HTTP-status lookup `ErrorStatusMap` of `src/errors.ts`. -/
def ErrorStatusMap : ErrorCode → Nat
  | .MISSING_REQUIRED_FIELDS => 400
  | .INVALID_AMOUNT => 400
  | .INVALID_ADDRESS => 400
  | .INVALID_TOKEN_ADDRESS => 400
  | .INVALID_REQUEST_FORMAT => 400
  | .TOKEN_NOT_FOUND => 400
  | .INSUFFICIENT_BALANCE => 400
  | .INVALID_CONTENT_TYPE => 400
  | .ENDPOINT_NOT_FOUND => 404
  | .PAYMENT_TIMEOUT => 408
  | .TIMEOUT_ERROR => 408
  | .REQUEST_TOO_LARGE => 413
  | .RATE_LIMIT_EXCEEDED => 429
  | .SWAP_EXECUTION_FAILED => 500
  | .BALANCE_QUERY_FAILED => 500
  | .CONFIGURATION_ERROR => 500
  | .INTERNAL_SERVER_ERROR => 500
  | .LIGHTNING_NOT_AVAILABLE => 503
  | .NETWORK_ERROR => 503
  | .RPC_CONNECTION_FAILED => 503

/-- The fixed code-to-message lookup `ErrorMessages` of `src/errors.ts`. -/
def ErrorMessages : ErrorCode → String
  | .MISSING_REQUIRED_FIELDS => "Required fields are missing from the request"
  | .INVALID_AMOUNT => "Amount must be a positive number"
  | .INVALID_ADDRESS => "Address format is invalid"
  | .INVALID_TOKEN_ADDRESS =>
      "Token address must be a valid hex string (66 characters starting with 0x)"
  | .INVALID_REQUEST_FORMAT => "Request format is invalid"
  | .ENDPOINT_NOT_FOUND => "Endpoint not found"
  | .TOKEN_NOT_FOUND => "Token not available for swapping"
  | .LIGHTNING_NOT_AVAILABLE => "Lightning Network service is currently unavailable"
  | .INSUFFICIENT_BALANCE => "Insufficient balance for the requested operation"
  | .SWAP_EXECUTION_FAILED => "Atomic swap execution failed"
  | .BALANCE_QUERY_FAILED => "Failed to retrieve balance information"
  | .CONFIGURATION_ERROR => "System configuration error"
  | .INTERNAL_SERVER_ERROR => "An internal server error occurred"
  | .NETWORK_ERROR => "Network connectivity issue"
  | .PAYMENT_TIMEOUT => "Payment not received within timeout period"
  | .TIMEOUT_ERROR => "Operation timed out"
  | .RPC_CONNECTION_FAILED => "Failed to connect to blockchain RPC"
  | .RATE_LIMIT_EXCEEDED => "Rate limit exceeded, please try again later"
  | .REQUEST_TOO_LARGE => "Request payload is too large"
  | .INVALID_CONTENT_TYPE => "Invalid or missing Content-Type header"

/-- The structured error value built by the `AppError` class of
`src/errors.ts` (the observable fields: code, message, HTTP status). -/
structure AppError where
  code : ErrorCode
  message : String
  statusCode : Nat
  deriving DecidableEq, Repr

/-- The `AppError` constructor: `super(message || ErrorMessages[code])` and
`this.statusCode = ErrorStatusMap[code]`.  An absent or empty (falsy)
message falls back to the fixed per-code message. -/
def AppError.make (code : ErrorCode) (message : Option String) : AppError :=
  { code
    message :=
      match message with
      | some m => if m = "" then ErrorMessages code else m
      | none => ErrorMessages code
    statusCode := ErrorStatusMap code }

/-- The value handed to `ErrorClassifier.classify`: an `AppError`, a plain
JavaScript `Error` carrying a message, or any other value (seen through
`String(error)`). -/
inductive JsError where
  | appErr (e : AppError)
  | jsErr (message : String)
  | other (stringRepr : String)
  deriving DecidableEq, Repr

namespace ErrorClassifier

/-- `ErrorClassifier.classify` of `src/errors.ts`: pass `AppError`s through
unchanged, otherwise scan the lowercased message for keyword signals, else
fall back to `fallbackCode`. -/
def classify (error : JsError) (fallbackCode : ErrorCode) : AppError :=
  match error with
  | .appErr e => e
  | .jsErr msg =>
      let message := lowerStr msg
      if jsIncludes message "network" || jsIncludes message "connection" ||
          jsIncludes message "econnrefused" then
        AppError.make .NETWORK_ERROR (some msg)
      else if jsIncludes message "rpc" || jsIncludes message "node" ||
          jsIncludes message "provider" then
        AppError.make .RPC_CONNECTION_FAILED (some msg)
      else if jsIncludes message "timeout" || jsIncludes message "timed out" then
        AppError.make .TIMEOUT_ERROR (some msg)
      else if jsIncludes message "insufficient balance" ||
          jsIncludes message "insufficient funds" then
        AppError.make .INSUFFICIENT_BALANCE (some msg)
      else if jsIncludes message "config" || jsIncludes message "environment" ||
          jsIncludes message "missing" then
        AppError.make .CONFIGURATION_ERROR (some msg)
      else
        AppError.make fallbackCode (some msg)
  | .other r => AppError.make fallbackCode (some r)

/-- `ErrorClassifier.isRetryable` of `src/errors.ts`. -/
def isRetryable (error : AppError) : Bool :=
  let retryableCodes : List ErrorCode :=
    [.NETWORK_ERROR, .TIMEOUT_ERROR, .RPC_CONNECTION_FAILED, .LIGHTNING_NOT_AVAILABLE]
  retryableCodes.contains error.code

/-- `ErrorClassifier.isCritical` of `src/errors.ts` (operational flag is
always `true` for the errors this embedding constructs). -/
def isCritical (error : AppError) : Bool :=
  let criticalCodes : List ErrorCode := [.CONFIGURATION_ERROR, .INTERNAL_SERVER_ERROR]
  criticalCodes.contains error.code

end ErrorClassifier

/-- Claim C5 counterexample: the claim includes `PAYMENT_TIMEOUT` among the
retryable codes, but `ErrorClassifier.isRetryable` reports `false` for an
`AppError` carrying `PAYMENT_TIMEOUT`. -/
theorem C5_payment_timeout_not_retryable :
    ErrorClassifier.isRetryable (AppError.make .PAYMENT_TIMEOUT none) = false := by
  decide

/-- Claim C5 (amended): the set of codes reported retryable is exactly
`{NETWORK_ERROR, TIMEOUT_ERROR, RPC_CONNECTION_FAILED, LIGHTNING_NOT_AVAILABLE}`;
`PAYMENT_TIMEOUT` and every other code are not retryable. -/
theorem C5_retryable_set (e : AppError) :
    ErrorClassifier.isRetryable e = true ↔
      (e.code = .NETWORK_ERROR ∨ e.code = .TIMEOUT_ERROR ∨
        e.code = .RPC_CONNECTION_FAILED ∨ e.code = .LIGHTNING_NOT_AVAILABLE) := by
  obtain ⟨c, m, s⟩ := e
  cases c <;> simp [ErrorClassifier.isRetryable]

/-- Claim C7: every constructed `AppError` takes its HTTP status from the
fixed lookup `ErrorStatusMap` at its code, and that lookup sends
`PAYMENT_TIMEOUT` to 408, `RATE_LIMIT_EXCEEDED` to 429,
`LIGHTNING_NOT_AVAILABLE` to 503 and `TOKEN_NOT_FOUND` to 400. -/
theorem C7_status_from_code :
    (∀ (c : ErrorCode) (m : Option String),
        (AppError.make c m).statusCode = ErrorStatusMap c) ∧
      ErrorStatusMap .PAYMENT_TIMEOUT = 408 ∧
      ErrorStatusMap .RATE_LIMIT_EXCEEDED = 429 ∧
      ErrorStatusMap .LIGHTNING_NOT_AVAILABLE = 503 ∧
      ErrorStatusMap .TOKEN_NOT_FOUND = 400 :=
  ⟨fun _ _ => rfl, rfl, rfl, rfl, rfl⟩

/-- Claim C8: a failure that is already a classified `AppError` is returned
unchanged by `ErrorClassifier.classify`, and classification is idempotent:
classifying the result of a classification returns it unchanged. -/
theorem C8_classify_idempotent :
    (∀ (e : AppError) (fb : ErrorCode),
        ErrorClassifier.classify (.appErr e) fb = e) ∧
      (∀ (x : JsError) (fb : ErrorCode),
        ErrorClassifier.classify (.appErr (ErrorClassifier.classify x fb)) fb =
          ErrorClassifier.classify x fb) :=
  ⟨fun _ _ => rfl, fun _ _ => rfl⟩

/-- JavaScript `a || b` on an optional string: a missing or empty (falsy)
value yields the default. -/
def jsOrStr (v : Option String) (dflt : String) : String :=
  match v with
  | some s => if s = "" then dflt else s
  | none => dflt

/-- Value of a hexadecimal digit character, if it is one. -/
def hexDigitVal (c : Char) : Option Nat :=
  if '0' ≤ c && c ≤ '9' then some (c.toNat - 48)
  else if 'a' ≤ c && c ≤ 'f' then some (c.toNat - 87)
  else if 'A' ≤ c && c ≤ 'F' then some (c.toNat - 55)
  else none

/-- Is `c` a digit of the given radix (10 or 16)? -/
def isBaseDigit (base : Nat) (c : Char) : Bool :=
  match hexDigitVal c with
  | some v => v < base
  | none => false

/-- Models JavaScript `parseInt(s)`: skip leading whitespace, optional sign,
auto-detected `0x`/`0X` hexadecimal prefix, read the longest leading run of
digits and ignore the rest; `none` models `NaN` (no digits consumed). -/
def parseIntJS (s : String) : Option Int :=
  let cs := s.data.dropWhile (fun c => c.isWhitespace)
  let signed : Int × List Char :=
    match cs with
    | '+' :: rest => (1, rest)
    | '-' :: rest => (-1, rest)
    | _ => (1, cs)
  let based : Nat × List Char :=
    match signed.2 with
    | '0' :: 'x' :: rest => (16, rest)
    | '0' :: 'X' :: rest => (16, rest)
    | _ => (10, signed.2)
  let digits := based.2.takeWhile (isBaseDigit based.1)
  if digits.isEmpty then none
  else
    some (signed.1 *
      (digits.foldl (fun acc c => acc * based.1 + (hexDigitVal c).getD 0) 0 : Nat))

/-- `validateJsonMiddleware` of `src/middleware.ts`: on POST/PUT/PATCH, a
truthy (present, nonempty) Content-Type header that does not include
`application/json` is rejected with `INVALID_CONTENT_TYPE`; otherwise the
request passes through.  `none` models an absent header. -/
def validateJson (method : String) (contentType : Option String) : Option ErrorCode :=
  if method = "POST" ∨ method = "PUT" ∨ method = "PATCH" then
    match contentType with
    | some ct =>
        if ct ≠ "" ∧ jsIncludes ct "application/json" = false then
          some .INVALID_CONTENT_TYPE
        else
          none
    | none => none
  else
    none

/-- `validateRequestSizeMiddleware` of `src/middleware.ts`:
`parseInt(req.get('Content-Length') || '0')` compared against 1 MiB; a
`NaN` content length (`none`) is not greater than the ceiling. -/
def validateRequestSize (contentLength : Option String) : Option ErrorCode :=
  let maxSize := 1024 * 1024
  match parseIntJS (jsOrStr contentLength "0") with
  | some n => if n > (maxSize : Int) then some .REQUEST_TOO_LARGE else none
  | none => none

/-- A rate-limit bucket of `src/middleware.ts` (`rateLimitStore` entry):
request count and window reset time in milliseconds. -/
structure RateBucket where
  count : Nat
  resetTime : Nat
  deriving DecidableEq, Repr

/-- Outcome of one pass through `rateLimitMiddleware`. -/
inductive RateDecision where
  | admitted
  | rejected (retryAfter : Nat)
  deriving DecidableEq, Repr

/-- One pass of `rateLimitMiddleware` for a single client at time `now`:
absent or expired bucket is reset to count 1 and admitted; a full bucket
rejects with `retryAfter = ceil((resetTime - now) / 1000)` seconds and
leaves the bucket untouched; otherwise the count is incremented. -/
def rateLimitStep (windowMs maxRequests now : Nat) (bucket : Option RateBucket) :
    RateDecision × RateBucket :=
  match bucket with
  | none => (.admitted, ⟨1, now + windowMs⟩)
  | some b =>
      if now > b.resetTime then
        (.admitted, ⟨1, now + windowMs⟩)
      else if b.count ≥ maxRequests then
        (.rejected ((b.resetTime - now + 999) / 1000), b)
      else
        (.admitted, ⟨b.count + 1, b.resetTime⟩)

/-- Run the rate limiter over a sequence of request times for one client,
collecting the decisions and the final bucket. -/
def rateLimitRun (windowMs maxRequests : Nat) :
    List Nat → Option RateBucket → List RateDecision × Option RateBucket
  | [], b => ([], b)
  | t :: ts, b =>
      let step := rateLimitStep windowMs maxRequests t b
      let rest := rateLimitRun windowMs maxRequests ts (some step.2)
      (step.1 :: rest.1, rest.2)

/-- In-window runs only increment: starting from a live bucket with count
`k` and reset time `R`, a batch of requests all at times `≤ R` that keeps
the count within the ceiling is admitted wholesale. -/
theorem rateLimitRun_in_window (W N R : Nat) (ts : List Nat) (k : Nat)
    (hts : ∀ t ∈ ts, t ≤ R) (hk : k + ts.length ≤ N) :
    rateLimitRun W N ts (some ⟨k, R⟩) =
      (List.replicate ts.length .admitted, some ⟨k + ts.length, R⟩) := by
  induction ts generalizing k with
  | nil => simp [rateLimitRun]
  | cons t ts ih =>
      have ht : t ≤ R := hts t (by simp)
      have hlt : k < N := by
        have := hk
        simp [List.length_cons] at this
        omega
      have hstep : rateLimitStep W N t (some ⟨k, R⟩) = (.admitted, ⟨k + 1, R⟩) := by
        simp only [rateLimitStep]
        rw [if_neg (by omega), if_neg (by omega)]
      have hrest := ih (k + 1)
        (fun s hs => hts s (by simp [hs]))
        (by simp [List.length_cons] at hk ⊢; omega)
      simp [rateLimitRun, hstep, hrest, List.replicate_succ]
      omega

/-- Claim C2 counterexample: with the default window (900000 ms) and
ceiling (100), a client's first 100 requests at time 0 are all admitted,
yet the 101st request arriving exactly at the bucket's reset time — still
inside the window, since only times strictly past the reset time roll it
over — is rejected with `retryAfter = 0`, which is not positive. -/
theorem C2_retry_after_zero_at_reset :
    (rateLimitRun 900000 100 (List.replicate 100 0) none).1 =
        List.replicate 100 .admitted ∧
      (rateLimitStep 900000 100 900000
          (rateLimitRun 900000 100 (List.replicate 100 0) none).2).1 =
        .rejected 0 := by
  have h0 : rateLimitRun 900000 100 (List.replicate 100 0) none =
      (.admitted :: (rateLimitRun 900000 100 (List.replicate 99 0)
          (some ⟨1, 900000⟩)).1,
        (rateLimitRun 900000 100 (List.replicate 99 0) (some ⟨1, 900000⟩)).2) := by
    rfl
  have h1 := rateLimitRun_in_window 900000 100 900000 (List.replicate 99 0) 1
    (by intro t ht; simp at ht; omega) (by simp)
  constructor
  · rw [h0]
    simp [h1]
    rfl
  · rw [h0]
    simp [h1]
    rfl

/-- Claim C2 (amended): from an empty store, a client's `N` requests whose
later arrivals all fall within the first request's window are all admitted;
an `(N+1)`-th request at a time `t` not past the reset time is rejected
with `RATE_LIMIT_EXCEEDED` carrying `retryAfter = ceil((t0 + W − t)/1000)`,
which is positive exactly when `t` is strictly before the reset time (and
zero for a request at exactly the reset time); and an `(N+1)`-th request
strictly past the reset time is admitted with a fresh bucket of count 1. -/
theorem C2_fixed_window (W N t0 t t' : Nat) (ts : List Nat)
    (hts : ∀ s ∈ ts, s ≤ t0 + W) (hlen : ts.length + 1 = N)
    (ht : t ≤ t0 + W) (ht' : t0 + W < t') :
    (rateLimitRun W N (t0 :: ts) none).1 = List.replicate N .admitted ∧
      (rateLimitStep W N t (rateLimitRun W N (t0 :: ts) none).2).1 =
        .rejected ((t0 + W - t + 999) / 1000) ∧
      (0 < (t0 + W - t + 999) / 1000 ↔ t < t0 + W) ∧
      rateLimitStep W N t' (rateLimitRun W N (t0 :: ts) none).2 =
        (.admitted, ⟨1, t' + W⟩) := by
  have h0 : rateLimitRun W N (t0 :: ts) none =
      (.admitted :: (rateLimitRun W N ts (some ⟨1, t0 + W⟩)).1,
        (rateLimitRun W N ts (some ⟨1, t0 + W⟩)).2) := by
    rfl
  have h1 := rateLimitRun_in_window W N (t0 + W) ts 1 hts (by omega)
  have hbucket : (rateLimitRun W N (t0 :: ts) none).2 =
      some ⟨N, t0 + W⟩ := by
    rw [h0]
    simp [h1]
    omega
  refine ⟨?_, ?_, ?_, ?_⟩
  · rw [h0]
    simp [h1]
    rw [← hlen]
    simp [List.replicate_succ]
  · rw [hbucket]
    simp only [rateLimitStep]
    rw [if_neg (by omega), if_pos (by omega)]
  · omega
  · rw [hbucket]
    simp only [rateLimitStep]
    rw [if_pos (by omega)]

/-- Claim C2 witness: the amended statement at the default configuration
(15-minute window, ceiling 100), with 100 requests at time 0, a rejected
101st request at time 1000 and an admitted one at time 900001. -/
theorem C2_fixed_window_witness :
    (∀ s ∈ (List.replicate 99 0 : List Nat), s ≤ 0 + 900000) ∧
      (List.replicate 99 (0 : Nat)).length + 1 = 100 ∧
      1000 ≤ 0 + 900000 ∧ 0 + 900000 < 900001 ∧
      ((rateLimitRun 900000 100 (0 :: List.replicate 99 0) none).1 =
          List.replicate 100 .admitted ∧
        (rateLimitStep 900000 100 1000
            (rateLimitRun 900000 100 (0 :: List.replicate 99 0) none).2).1 =
          .rejected ((0 + 900000 - 1000 + 999) / 1000) ∧
        (0 < (0 + 900000 - 1000 + 999) / 1000 ↔ 1000 < 0 + 900000) ∧
        rateLimitStep 900000 100 900001
            (rateLimitRun 900000 100 (0 :: List.replicate 99 0) none).2 =
          (.admitted, ⟨1, 900001 + 900000⟩)) :=
  ⟨by intro s hs; simp at hs; omega, by simp, by omega, by omega,
    C2_fixed_window 900000 100 0 1000 900001 (List.replicate 99 0)
      (by intro s hs; simp at hs; omega) (by simp) (by omega) (by omega)⟩

/-- Claim C9 counterexample: a rejected request leaves the client's bucket
completely unchanged — with a full default bucket (count 100, reset time
900000) a request at time 0 is rejected and the stored bucket after the
request equals the bucket before it, so rejected requests do not mutate
the bucket as claimed. -/
theorem C9_rejected_leaves_bucket :
    rateLimitStep 900000 100 0 (some ⟨100, 900000⟩) =
      (.rejected 900, ⟨100, 900000⟩) := by
  decide

/-- Claim C9 (amended): the bucket is created with count 1 when absent,
reset to count 1 when the current time is strictly past its reset time,
incremented on an admitted in-window request, and left unchanged on a
rejected request; so the bucket is mutated on every admitted request but
not on rejected ones. -/
theorem C9_bucket_mutation (W N now : Nat) (b : RateBucket) :
    rateLimitStep W N now none = (.admitted, ⟨1, now + W⟩) ∧
      (b.resetTime < now →
        rateLimitStep W N now (some b) = (.admitted, ⟨1, now + W⟩)) ∧
      (now ≤ b.resetTime → b.count < N →
        rateLimitStep W N now (some b) = (.admitted, ⟨b.count + 1, b.resetTime⟩)) ∧
      (now ≤ b.resetTime → N ≤ b.count →
        (rateLimitStep W N now (some b)).2 = b) := by
  refine ⟨rfl, ?_, ?_, ?_⟩
  · intro h
    simp only [rateLimitStep]
    rw [if_pos (by omega)]
  · intro h1 h2
    simp only [rateLimitStep]
    rw [if_neg (by omega), if_neg (by omega)]
  · intro h1 h2
    simp only [rateLimitStep]
    rw [if_neg (by omega), if_pos (by omega)]

/-- Claim C9 witness: the amended statement applied to a full bucket
(count 2, ceiling 2) at an in-window time, leaving the bucket unchanged. -/
theorem C9_bucket_mutation_witness :
    (5 : Nat) ≤ (7 : Nat) ∧ (2 : Nat) ≤ (2 : Nat) ∧
      (rateLimitStep 10 2 5 (some ⟨2, 7⟩)).2 = (⟨2, 7⟩ : RateBucket) :=
  ⟨by omega, by omega,
    (C9_bucket_mutation 10 2 5 ⟨2, 7⟩).2.2.2 (by decide) (by decide)⟩

/-- Claim C10 counterexample: a POST whose Content-Type header is present
but empty is admitted by `validateJsonMiddleware` (the empty string is
falsy), although the header is present and does not include
`application/json`, so the claimed if-and-only-if fails there. -/
theorem C10_empty_header_admitted :
    validateJson "POST" (some "") = none ∧
      jsIncludes "" "application/json" = false := by
  exact ⟨rfl, rfl⟩

/-- Claim C10 (amended): the content-type check rejects with
`INVALID_CONTENT_TYPE` exactly when the method is POST, PUT or PATCH and a
Content-Type header is present with a nonempty value that does not include
`application/json`; a POST with no Content-Type header at all (or with an
empty one) is admitted, even though the code's canonical message table
reads `Invalid or missing Content-Type header`. -/
theorem C10_content_type_check (method : String) (ct : Option String) :
    (validateJson method ct = some .INVALID_CONTENT_TYPE ↔
        ((method = "POST" ∨ method = "PUT" ∨ method = "PATCH") ∧
          ∃ s, ct = some s ∧ s ≠ "" ∧ jsIncludes s "application/json" = false)) ∧
      validateJson "POST" none = none ∧
      ErrorMessages .INVALID_CONTENT_TYPE = "Invalid or missing Content-Type header" := by
  refine ⟨?_, rfl, rfl⟩
  unfold validateJson
  by_cases hm : method = "POST" ∨ method = "PUT" ∨ method = "PATCH"
  · rw [if_pos hm]
    cases ct with
    | none =>
        constructor
        · intro h
          exact Option.noConfusion h
        · rintro ⟨_, s', hs', _⟩
          exact Option.noConfusion hs'
    | some s =>
        dsimp only
        by_cases hc : s ≠ "" ∧ jsIncludes s "application/json" = false
        · rw [if_pos hc]
          constructor
          · intro _
            exact ⟨hm, s, rfl, hc.1, hc.2⟩
          · intro _
            rfl
        · rw [if_neg hc]
          constructor
          · intro h
            exact Option.noConfusion h
          · rintro ⟨_, s', hs', h1, h2⟩
            injection hs' with hss
            exact absurd ⟨hss ▸ h1, hss ▸ h2⟩ hc
  · rw [if_neg hm]
    constructor
    · intro h
      exact Option.noConfusion h
    · rintro ⟨hm2, _⟩
      exact absurd hm2 hm

/-- A JSON value as seen by the route handler's field reads (the subset the
atomic-swap body can carry: numbers modelled as integers, strings, booleans,
null, and an absent field). -/
inductive JsVal where
  | num (n : Int)
  | str (s : String)
  | bool (b : Bool)
  | nul
  | undef
  deriving DecidableEq, Repr

/-- JavaScript truthiness for the values of `JsVal`. -/
def truthy : JsVal → Bool
  | .num n => n != 0
  | .str s => s != ""
  | .bool b => b
  | .nul => false
  | .undef => false

/-- `typeof amountSats === 'string' ? parseInt(amountSats) : Number(amountSats)`
of `src/routes.ts`; `none` models `NaN`. -/
def parsedAmount : JsVal → Option Int
  | .str s => parseIntJS s
  | .num n => some n
  | .bool b => some (if b then 1 else 0)
  | .nul => some 0
  | .undef => none

/-- Outcome of the handler's inline validation block (required fields,
amount, token-address format); `typeErr` is the `TypeError` thrown when a
truthy non-string `tokenAddress` reaches `.startsWith`. -/
inductive ValOutcome where
  | missingFields
  | invalidAmount
  | invalidToken
  | typeErr
  | proceed (amount : Int) (token : String)
  deriving DecidableEq, Repr

/-- The validation block of `router.post('/api/atomic-swap')`
(`src/routes.ts:374-417`), applied in source order: required fields, then
amount, then token-address prefix and length. -/
def validateSwapBody (amountSats lightningDestination tokenAddress : JsVal) : ValOutcome :=
  if truthy amountSats = false ∨ truthy lightningDestination = false ∨
      truthy tokenAddress = false then
    .missingFields
  else
    match parsedAmount amountSats with
    | none => .invalidAmount
    | some amount =>
        if amount ≤ 0 then .invalidAmount
        else
          match tokenAddress with
          | .str tok =>
              if jsStartsWith tok "0x" = false ∨ tok.length ≠ 66 then .invalidToken
              else .proceed amount tok
          | _ => .typeErr

/-- A catalog entry of the provider's available tokens. -/
structure TokenInfo where
  address : String
  ticker : String
  lightning : Bool
  deriving DecidableEq, Repr

/-- Oracle for the effectful steps of one handler execution: each provider
call either succeeds with its value or throws with a message.  `importRes`
covers the dynamic imports, `createDefaultConfig()` and the `AtomicSwapper`
constructor (everything before `swapper` is assigned); `quoteRes` carries
`swap.getId()` of the created quote (`none` models a falsy id). -/
structure SwapEnv where
  importRes : Except String Unit
  initRes : Except String Unit
  starknetTokens : List TokenInfo
  bitcoinTokens : List TokenInfo
  quoteRes : Except String (Option String)
  commitRes : Except String Unit
  waitRes : Except String Bool
  deriving Repr

/-- Observable outcome of one handler execution: HTTP status, error code
(`none` on success), how many times `swapper.stop()` was invoked, whether a
provider session was created (`swapper` assigned), and whether the token
catalog lookup (Route Resolver) was reached. -/
structure HandlerResult where
  status : Nat
  errorCode : Option ErrorCode
  stops : Nat
  swapperCreated : Bool
  resolverReached : Bool
  deriving DecidableEq, Repr

/-- The catch-block classification of `src/routes.ts:621-634`: status and
code from keyword matches on the thrown error's message. -/
def catchCode (msg : String) : Nat × ErrorCode :=
  if jsIncludes msg "insufficient balance" then (400, .INSUFFICIENT_BALANCE)
  else if jsIncludes msg "network" then (503, .NETWORK_ERROR)
  else if jsIncludes msg "timeout" then (408, .TIMEOUT_ERROR)
  else (500, .SWAP_EXECUTION_FAILED)

/-- Result of the handler's catch block for a thrown message, recording how
many stops ran and what had been reached. -/
def catchResult (msg : String) (stops : Nat) (created resolver : Bool) : HandlerResult :=
  ⟨(catchCode msg).1, some (catchCode msg).2, stops, created, resolver⟩

/-- The `POST /api/atomic-swap` handler of `src/routes.ts:360-648` as a
function of the request body fields and the provider oracle.  Every exit
path mirrors a `return res...` or catch-block path of the source; a thrown
error lands in the catch block, which calls `swapper.stop()` whenever
`swapper` is non-null. -/
def atomicSwapHandler (amountSats lightningDestination tokenAddress : JsVal)
    (env : SwapEnv) : HandlerResult :=
  match validateSwapBody amountSats lightningDestination tokenAddress with
  | .missingFields => ⟨400, some .MISSING_REQUIRED_FIELDS, 0, false, false⟩
  | .invalidAmount => ⟨400, some .INVALID_AMOUNT, 0, false, false⟩
  | .invalidToken => ⟨400, some .INVALID_TOKEN_ADDRESS, 0, false, false⟩
  | .typeErr => catchResult "tokenAddress.startsWith is not a function" 0 false false
  | .proceed _amount tok =>
      match env.importRes with
      | .error m => catchResult m 0 false false
      | .ok _ =>
          match env.initRes with
          | .error m => catchResult m 1 true false
          | .ok _ =>
              match env.starknetTokens.find? (fun t => t.address == tok) with
              | none => ⟨400, some .TOKEN_NOT_FOUND, 1, true, true⟩
              | some _tokenInfo =>
                  match env.bitcoinTokens.find? (fun t => t.lightning) with
                  | none => ⟨503, some .LIGHTNING_NOT_AVAILABLE, 1, true, true⟩
                  | some _lightningToken =>
                      match env.quoteRes with
                      | .error m => catchResult m 1 true true
                      | .ok none =>
                          catchResult "Failed to get swap ID from swap quote" 1 true true
                      | .ok (some swapId) =>
                          if swapId = "" then
                            catchResult "Failed to get swap ID from swap quote" 1 true true
                          else
                            match env.commitRes with
                            | .error m => catchResult m 1 true true
                            | .ok _ =>
                                match env.waitRes with
                                | .error m => catchResult m 1 true true
                                | .ok false => ⟨408, some .PAYMENT_TIMEOUT, 1, true, true⟩
                                | .ok true => ⟨200, none, 1, true, true⟩

/-- A well-formed 66-character zero token address. -/
def zeroAddress : String :=
  "0x0000000000000000000000000000000000000000000000000000000000000000"

/-- A 66-character `0x`-prefixed token address whose tail characters are
not hexadecimal digits. -/
def nonHexAddress : String :=
  "0xzzzzzzzzzzzzzzzzzzzzzzzzzzzzzzzzzzzzzzzzzzzzzzzzzzzzzzzzzzzzzzzz"

theorem catchResult_stops (m : String) (s : Nat) (c r : Bool) :
    (catchResult m s c r).stops = s := rfl

theorem catchResult_created (m : String) (s : Nat) (c r : Bool) :
    (catchResult m s c r).swapperCreated = c := rfl

theorem catchResult_code (m : String) (s : Nat) (c r : Bool) :
    (catchResult m s c r).errorCode = some (catchCode m).2 := rfl

/-- The catch block can only classify a thrown error as insufficient
balance, network, timeout, or swap-execution failure — never as a
token-address format error. -/
theorem catchCode_ne_invalid_token (m : String) :
    ¬((catchCode m).2 = ErrorCode.INVALID_TOKEN_ADDRESS) := by
  unfold catchCode
  split
  · simp
  · split
    · simp
    · split <;> simp

/-- Claim C1 counterexample: the request body with `amountSats = 0` (an
amount less than or equal to zero) and valid remaining fields is rejected
with `MISSING_REQUIRED_FIELDS`, not `INVALID_AMOUNT`: the falsy-field
check `!amountSats` fires on the number 0 before the amount check runs. -/
theorem C1_zero_amount_is_missing_fields :
    atomicSwapHandler (.num 0) (.str "test@coinos.io") (.str zeroAddress)
        ⟨.ok (), .ok (), [], [], .ok (some "swap1"), .ok (), .ok true⟩ =
      ⟨400, some .MISSING_REQUIRED_FIELDS, 0, false, false⟩ ∧
      some ErrorCode.MISSING_REQUIRED_FIELDS ≠ some ErrorCode.INVALID_AMOUNT := by
  constructor
  · rfl
  · decide

/-- Claim C1 (amended): for every request whose three fields are truthy
(so the falsy-field check does not fire first) and whose `amountSats`
parses to a non-positive integer or to `NaN`, the handler rejects with
`INVALID_AMOUNT` (HTTP 400), no provider session is created, and the token
lookup (Route Resolver) is never reached; an `amountSats` of exactly 0 or
the empty string is instead caught earlier by the required-fields check,
also before the Route Resolver. -/
theorem C1_invalid_amount (a d tok : JsVal) (env : SwapEnv)
    (ha : truthy a = true) (hd : truthy d = true) (htok : truthy tok = true)
    (hamt : ∀ n : Int, parsedAmount a = some n → n ≤ 0) :
    atomicSwapHandler a d tok env = ⟨400, some .INVALID_AMOUNT, 0, false, false⟩ := by
  have hv : validateSwapBody a d tok = .invalidAmount := by
    unfold validateSwapBody
    rw [if_neg (by simp [ha, hd, htok])]
    cases hp : parsedAmount a with
    | none => rfl
    | some n =>
        dsimp only
        rw [if_pos (hamt n hp)]
  unfold atomicSwapHandler
  rw [hv]

/-- Claim C1 witness: the amended statement at a non-numeric string amount
with valid remaining fields. -/
theorem C1_invalid_amount_witness :
    truthy (.str "abc") = true ∧ truthy (.str "test@coinos.io") = true ∧
      truthy (.str zeroAddress) = true ∧
      (∀ n : Int, parsedAmount (.str "abc") = some n → n ≤ 0) ∧
      atomicSwapHandler (.str "abc") (.str "test@coinos.io") (.str zeroAddress)
          ⟨.ok (), .ok (), [], [], .ok (some "swap1"), .ok (), .ok true⟩ =
        ⟨400, some .INVALID_AMOUNT, 0, false, false⟩ :=
  ⟨by decide, by decide, by decide,
    fun n h => by
      rw [(by decide : parsedAmount (JsVal.str "abc") = none)] at h
      exact Option.noConfusion h,
    C1_invalid_amount (.str "abc") (.str "test@coinos.io") (.str zeroAddress)
      ⟨.ok (), .ok (), [], [], .ok (some "swap1"), .ok (), .ok true⟩
      (by decide) (by decide) (by decide)
      (fun n h => by
        rw [(by decide : parsedAmount (JsVal.str "abc") = none)] at h
        exact Option.noConfusion h)⟩

/-- Claim C4 counterexample: a 66-character `0x`-prefixed token address
containing non-hexadecimal characters (`z`) passes the format check — the
code only tests the `0x` prefix and the length — and the request proceeds
to the token lookup, failing there with `TOKEN_NOT_FOUND` rather than the
claimed `INVALID_TOKEN_ADDRESS`. -/
theorem C4_nonhex_address_not_rejected :
    nonHexAddress.length = 66 ∧ jsStartsWith nonHexAddress "0x" = true ∧
      'z' ∈ nonHexAddress.data ∧ hexDigitVal 'z' = none ∧
      atomicSwapHandler (.num 100) (.str "test@coinos.io") (.str nonHexAddress)
          ⟨.ok (), .ok (), [], [], .ok (some "swap1"), .ok (), .ok true⟩ =
        ⟨400, some .TOKEN_NOT_FOUND, 1, true, true⟩ ∧
      some ErrorCode.TOKEN_NOT_FOUND ≠ some ErrorCode.INVALID_TOKEN_ADDRESS := by
  refine ⟨by decide, by decide, by decide, by decide, rfl, by decide⟩

/-- Claim C4 (amended): for every request with truthy fields and a valid
positive amount, the handler rejects with `INVALID_TOKEN_ADDRESS` exactly
when the token address does not start with `0x` or its length differs from
66; strings of correct prefix and length containing non-hexadecimal
characters are not rejected by this check. -/
theorem C4_token_format_check (a d : JsVal) (tok : String) (env : SwapEnv)
    (ha : truthy a = true) (hd : truthy d = true) (htok : tok ≠ "")
    (n : Int) (hn : parsedAmount a = some n) (hpos : 0 < n) :
    (atomicSwapHandler a d (.str tok) env).errorCode = some .INVALID_TOKEN_ADDRESS ↔
      (jsStartsWith tok "0x" = false ∨ tok.length ≠ 66) := by
  have htr : truthy (JsVal.str tok) = true := by
    simp [truthy, htok]
  have hv : validateSwapBody a d (.str tok) =
      (if jsStartsWith tok "0x" = false ∨ tok.length ≠ 66 then ValOutcome.invalidToken
        else ValOutcome.proceed n tok) := by
    unfold validateSwapBody
    rw [if_neg (by simp [ha, hd, htr])]
    rw [hn]
    dsimp only
    rw [if_neg (by omega)]
  unfold atomicSwapHandler
  rw [hv]
  by_cases hbad : jsStartsWith tok "0x" = false ∨ tok.length ≠ 66
  · rw [if_pos hbad]
    simpa using hbad
  · rw [if_neg hbad]
    refine iff_of_false ?_ hbad
    dsimp only
    repeat' split
    all_goals simp [catchResult_code, catchCode_ne_invalid_token]

/-- Claim C4 witness: the amended statement at a too-short token address,
rejected with `INVALID_TOKEN_ADDRESS`. -/
theorem C4_token_format_check_witness :
    truthy (.num 5) = true ∧ truthy (.str "test@coinos.io") = true ∧
      "0xab" ≠ "" ∧ parsedAmount (.num 5) = some 5 ∧ (0 : Int) < 5 ∧
      ((atomicSwapHandler (.num 5) (.str "test@coinos.io") (.str "0xab")
            ⟨.ok (), .ok (), [], [], .ok (some "swap1"), .ok (), .ok true⟩).errorCode =
          some .INVALID_TOKEN_ADDRESS ↔
        (jsStartsWith "0xab" "0x" = false ∨ ("0xab" : String).length ≠ 66)) :=
  ⟨by decide, by decide, by decide, by decide, by decide,
    C4_token_format_check (.num 5) (.str "test@coinos.io") "0xab"
      ⟨.ok (), .ok (), [], [], .ok (some "swap1"), .ok (), .ok true⟩
      (by decide) (by decide) (by decide) 5 (by decide) (by decide)⟩

/-- Claim C6: on every execution path on which the provider session was
created (`swapper` assigned — success, payment timeout, token-not-found,
lightning-unavailable, and every thrown error), `swapper.stop()` is
invoked exactly once before the handler returns its response. -/
theorem C6_session_always_released (a d tok : JsVal) (env : SwapEnv)
    (h : (atomicSwapHandler a d tok env).swapperCreated = true) :
    (atomicSwapHandler a d tok env).stops = 1 := by
  revert h
  unfold atomicSwapHandler
  repeat' split
  all_goals simp [catchResult_stops, catchResult_created]

/-- Claim C6 witness: a fully successful run creates the session and stops
it exactly once. -/
theorem C6_session_always_released_witness :
    (atomicSwapHandler (.num 100) (.str "test@coinos.io") (.str zeroAddress)
          ⟨.ok (), .ok (), [⟨zeroAddress, "WBTC", false⟩], [⟨"bc1q", "BTC", true⟩],
            .ok (some "swap1"), .ok (), .ok true⟩).swapperCreated = true ∧
      (atomicSwapHandler (.num 100) (.str "test@coinos.io") (.str zeroAddress)
          ⟨.ok (), .ok (), [⟨zeroAddress, "WBTC", false⟩], [⟨"bc1q", "BTC", true⟩],
            .ok (some "swap1"), .ok (), .ok true⟩).stops = 1 :=
  ⟨by decide,
    C6_session_always_released (.num 100) (.str "test@coinos.io") (.str zeroAddress)
      ⟨.ok (), .ok (), [⟨zeroAddress, "WBTC", false⟩], [⟨"bc1q", "BTC", true⟩],
        .ok (some "swap1"), .ok (), .ok true⟩ (by decide)⟩

/-- Strip leading and trailing whitespace from a character list. -/
def trimChars (cs : List Char) : List Char :=
  ((cs.dropWhile Char.isWhitespace).reverse.dropWhile Char.isWhitespace).reverse

/-- The media type of a Content-Type header value: everything before the
first parameter separator, trimmed and lowercased — how `type-is` matches
a request against the body parsers' `type` option. -/
def mediaType (ct : String) : String :=
  String.mk ((trimChars (ct.data.takeWhile (fun c => c ≠ ';'))).map Char.toLower)

/-- Does one of the body parsers installed at `src/index.ts:78-80`
(`express.json`, `express.urlencoded`) consume this request body? A
request with no Content-Type header matches neither parser. -/
def bodyParserHandles (ct : Option String) : Bool :=
  match ct with
  | some s =>
      mediaType s == "application/json" ||
        mediaType s == "application/x-www-form-urlencoded"
  | none => false

/-- Does the body-parser stage throw `PayloadTooLargeError`? Both parsers
are configured with `limit: '1mb'` (1048576 bytes) and reject a body they
handle whose declared Content-Length exceeds the limit, before any of the
custom middleware runs. -/
def bodyParserRejects (ct cl : Option String) : Bool :=
  bodyParserHandles ct &&
    (match parseIntJS (jsOrStr cl "0") with
      | some n => decide (n > 1024 * 1024)
      | none => false)

/-- `errorHandlerMiddleware` of `src/middleware.ts:55-120`: HTTP status and
error-code string chosen from the thrown error value by its name and
message keywords, defaulting to 500 `INTERNAL_ERROR`. -/
def errorHandlerResponse (name message : String) : Nat × String :=
  if name = "ValidationError" then (400, "VALIDATION_ERROR")
  else if name = "UnauthorizedError" then (401, "UNAUTHORIZED")
  else if name = "NotFoundError" then (404, "NOT_FOUND")
  else if jsIncludes message "timeout" then (408, "TIMEOUT")
  else if jsIncludes message "rate limit" then (429, "RATE_LIMIT")
  else (500, "INTERNAL_ERROR")

/-- Verdict of the admission chain for one request: an error answered by
the global error handler (a body-parser throw skips the remaining
middleware and lands there), a structured rejection carrying an
`ErrorCode`, or admission through to the swap execution. -/
inductive AdmissionResult where
  | handledError (response : Nat × String)
  | rejectedWith (c : ErrorCode)
  | passed
  deriving DecidableEq, Repr

/-- Lift the first-rejection code of a route-order description into an
admission verdict. -/
def liftCode : Option ErrorCode → AdmissionResult
  | some c => .rejectedWith c
  | none => .passed

/-- The admission chain for a `POST /api/atomic-swap` request as wired in
`startServer` (`src/index.ts:78-89`): the `express.json`/`express.urlencoded`
body parsers with their 1 MiB limit (whose `PayloadTooLargeError` is
answered by `errorHandlerMiddleware`, name `PayloadTooLargeError`, message
`request entity too large`), then `validateJsonMiddleware`, then
`validateRequestSizeMiddleware`, then `rateLimitMiddleware`, then the route
handler's validation block; the first rejecting stage determines the
verdict. -/
def admissionCode (W N now : Nat) (bucket : Option RateBucket) (ct cl : Option String)
    (amountSats lightningDestination tokenAddress : JsVal) : AdmissionResult :=
  if bodyParserRejects ct cl then
    .handledError (errorHandlerResponse "PayloadTooLargeError" "request entity too large")
  else
    match validateJson "POST" ct with
    | some c => .rejectedWith c
    | none =>
        match validateRequestSize cl with
        | some c => .rejectedWith c
        | none =>
            match (rateLimitStep W N now bucket).1 with
            | .rejected _ => .rejectedWith .RATE_LIMIT_EXCEEDED
            | .admitted =>
                match validateSwapBody amountSats lightningDestination tokenAddress with
                | .missingFields => .rejectedWith .MISSING_REQUIRED_FIELDS
                | .invalidAmount => .rejectedWith .INVALID_AMOUNT
                | .invalidToken => .rejectedWith .INVALID_TOKEN_ADDRESS
                | _ => .passed

/-- Modelled from the claimed check order of the spec (claim C3): required
fields, then amount, then token-address format, then content type, then
body size, first violation winning. -/
def claimedOrderCode (ct cl : Option String)
    (amountSats lightningDestination tokenAddress : JsVal) : Option ErrorCode :=
  match validateSwapBody amountSats lightningDestination tokenAddress with
  | .missingFields => some .MISSING_REQUIRED_FIELDS
  | .invalidAmount => some .INVALID_AMOUNT
  | .invalidToken => some .INVALID_TOKEN_ADDRESS
  | _ =>
      match validateJson "POST" ct with
      | some c => some c
      | none => validateRequestSize cl

/-- Claim C3 counterexample: a POST with Content-Type `text/plain` and a
missing `amountSats` violates both the content-type check and the
required-fields check; the body parsers skip the non-matching type and the
server answers `INVALID_CONTENT_TYPE` (the middleware runs before the
route handler), while the claimed order would answer
`MISSING_REQUIRED_FIELDS`. -/
theorem C3_content_type_before_fields :
    admissionCode 900000 100 0 none (some "text/plain") none
        .undef (.str "test@coinos.io") (.str zeroAddress) =
      .rejectedWith .INVALID_CONTENT_TYPE ∧
      claimedOrderCode (some "text/plain") none
          .undef (.str "test@coinos.io") (.str zeroAddress) =
        some .MISSING_REQUIRED_FIELDS ∧
      ErrorCode.INVALID_CONTENT_TYPE ≠ ErrorCode.MISSING_REQUIRED_FIELDS := by
  refine ⟨by decide, by decide, by decide⟩

/-- Claim C3 (amended): the checks are applied in the fixed order body
parsers, content type, body size, rate limit, required fields, amount,
token-address format, stopping at the first violation — with the proviso
that an oversized body whose content type the `express.json`/`urlencoded`
parsers handle is answered 500 `INTERNAL_ERROR` by the global error
handler, never `REQUEST_TOO_LARGE`; the custom 1 MiB size check can only
fire for bodies the parsers did not handle (for example a POST with no
Content-Type header); a content-type violation wins over everything after
it, a rate-limit rejection wins over the route checks, and once every
middleware stage passes the verdict is exactly the claimed
fields-amount-token order. -/
theorem C3_check_order (W N now : Nat) (bucket : Option RateBucket)
    (ct cl : Option String) (a d t : JsVal) :
    (bodyParserRejects ct cl = true →
        admissionCode W N now bucket ct cl a d t = .handledError (500, "INTERNAL_ERROR")) ∧
      (bodyParserRejects ct cl = false → ∀ c, validateJson "POST" ct = some c →
        admissionCode W N now bucket ct cl a d t = .rejectedWith c) ∧
      (bodyParserRejects ct cl = false → validateJson "POST" ct = none →
        ∀ c, validateRequestSize cl = some c →
        admissionCode W N now bucket ct cl a d t = .rejectedWith c) ∧
      (bodyParserRejects ct cl = false → validateJson "POST" ct = none →
        validateRequestSize cl = none →
        ∀ r, (rateLimitStep W N now bucket).1 = .rejected r →
        admissionCode W N now bucket ct cl a d t = .rejectedWith .RATE_LIMIT_EXCEEDED) ∧
      (bodyParserRejects ct cl = false → validateJson "POST" ct = none →
        validateRequestSize cl = none →
        (rateLimitStep W N now bucket).1 = .admitted →
        admissionCode W N now bucket ct cl a d t =
          liftCode (claimedOrderCode ct cl a d t)) := by
  refine ⟨?_, ?_, ?_, ?_, ?_⟩
  · intro hbp
    have h : admissionCode W N now bucket ct cl a d t =
        .handledError (errorHandlerResponse "PayloadTooLargeError"
          "request entity too large") := by
      unfold admissionCode
      rw [if_pos hbp]
    rw [h]
    decide
  · intro hbp c hc
    unfold admissionCode
    rw [if_neg (by simp [hbp]), hc]
  · intro hbp h1 c hc
    unfold admissionCode
    rw [if_neg (by simp [hbp]), h1, hc]
  · intro hbp h1 h2 r hr
    unfold admissionCode
    rw [if_neg (by simp [hbp]), h1, h2, hr]
  · intro hbp h1 h2 h3
    unfold admissionCode claimedOrderCode
    rw [if_neg (by simp [hbp]), h1, h2, h3]
    cases validateSwapBody a d t <;> rfl

/-- Claim C3 witness: an oversized `application/json` POST is answered 500
`INTERNAL_ERROR` by the body-parser stage, and a request passing every
middleware stage with a missing field gets `MISSING_REQUIRED_FIELDS`,
agreeing with the claimed route order. -/
theorem C3_check_order_witness :
    bodyParserRejects (some "application/json") (some "2000000") = true ∧
      admissionCode 900000 100 0 none (some "application/json") (some "2000000")
          .undef (.str "test@coinos.io") (.str zeroAddress) =
        .handledError (500, "INTERNAL_ERROR") ∧
      bodyParserRejects (some "application/json") none = false ∧
      validateJson "POST" (some "application/json") = none ∧
      validateRequestSize none = none ∧
      (rateLimitStep 900000 100 0 none).1 = .admitted ∧
      admissionCode 900000 100 0 none (some "application/json") none
          .undef (.str "test@coinos.io") (.str zeroAddress) =
        liftCode (claimedOrderCode (some "application/json") none
          .undef (.str "test@coinos.io") (.str zeroAddress)) :=
  ⟨by decide,
    (C3_check_order 900000 100 0 none (some "application/json") (some "2000000")
        .undef (.str "test@coinos.io") (.str zeroAddress)).1 (by decide),
    by decide, by decide, by decide, by decide,
    (C3_check_order 900000 100 0 none (some "application/json") none
        .undef (.str "test@coinos.io") (.str zeroAddress)).2.2.2.2
      (by decide) (by decide) (by decide) (by decide)⟩

end K1
